import Mathlib

/-!
Shallow embedding of the ImageOCR pipeline: the quality gate and image
normalization chain of `core/preprocess.py`, the per-line fallback
reconciler and text postprocessor of `core/tesseract_fallback.py`, and the
cache / deduplication logic of the image branch of
`utils/file_handler.extract_text`.

External library calls (OpenCV transforms, the Tesseract engine, hashlib)
are modelled as oracle parameters; the repository's own control flow,
arithmetic and string manipulation are translated directly.  Machine
floats are modelled by exact rationals: every comparison performed by the
source on the relevant paths is exact in both representations.
-/

/-! ### Python string primitives used by the source -/

/-- Model of Python `str.strip()`: drop whitespace from both ends. -/
def pyStrip (s : String) : String :=
  ⟨((s.data.dropWhile Char.isWhitespace).reverse.dropWhile Char.isWhitespace).reverse⟩

/-- Whether the first list is an initial segment of the second. -/
def leadsWith : List Char → List Char → Bool
  | [], _ => true
  | _ :: _, [] => false
  | a :: as, b :: bs => a == b && leadsWith as bs

/-- Fuel-indexed scanner for `pyReplace`: replaces non-overlapping
occurrences of `pat` left to right, as Python `str.replace` does.  The
fuel is the length of the scanned text, so it never runs out. -/
def replaceAux (pat rep : List Char) : Nat → List Char → List Char
  | _, [] => []
  | 0, s => s
  | fuel + 1, c :: cs =>
    if leadsWith pat (c :: cs) then
      rep ++ replaceAux pat rep fuel (List.drop pat.length (c :: cs))
    else
      c :: replaceAux pat rep fuel cs

/-- Model of Python `str.replace` for a non-empty pattern. -/
def pyReplace (s pat rep : String) : String :=
  if pat.data = [] then s else ⟨replaceAux pat.data rep.data s.data.length s.data⟩

/-- Join a list of strings with a separator, as Python `sep.join(...)`. -/
def joinWith (sep : String) : List String → String
  | [] => ""
  | [s] => s
  | s :: rest => s ++ sep ++ joinWith sep rest

/-- Helper for `splitlines`: accumulates the current line (reversed). -/
def splitlinesAux : List Char → List Char → List String
  | acc, [] => if acc = [] then [] else [⟨acc.reverse⟩]
  | acc, c :: rest =>
    if c = '\n' then ⟨acc.reverse⟩ :: splitlinesAux [] rest
    else splitlinesAux (c :: acc) rest

/-- Model of Python `str.splitlines()` for text whose only line break is
`'\n'` (the join separator used by the source): every newline terminates a
line, and a final segment is kept only when non-empty. -/
def splitlines (s : String) : List String := splitlinesAux [] s.data

/-! ### Levenshtein ratio (the `Levenshtein.ratio` library call)

`Levenshtein.ratio(a, b)` equals `(|a| + |b| - d) / (|a| + |b|)` where `d`
is the edit distance with substitution weight 2, i.e. the indel distance
`|a| + |b| - 2·lcs(a, b)`.  Hence the ratio is `2·lcs(a, b) / (|a| + |b|)`,
and `1` when both strings are empty. -/

/-- Fuel-indexed longest-common-subsequence length; the fuel is the sum of
the two lengths, which bounds the recursion depth. -/
def lcsF : Nat → List Char → List Char → Nat
  | 0, _, _ => 0
  | _ + 1, [], _ => 0
  | _ + 1, _ :: _, [] => 0
  | fuel + 1, a :: as, b :: bs =>
    if a = b then lcsF fuel as bs + 1
    else max (lcsF fuel (a :: as) bs) (lcsF fuel as (b :: bs))

/-- Longest-common-subsequence length of two character lists. -/
def lcsLen (a b : List Char) : Nat := lcsF (a.length + b.length) a b

/-- Model of `Levenshtein.ratio` from the `python-Levenshtein` library. -/
def lev_sim (a b : String) : ℚ :=
  if a.length + b.length = 0 then 1
  else (2 * lcsLen a.data b.data : ℚ) / (a.length + b.length)

/-! ### `core/tesseract_fallback.py` -/

/-- `CONFIDENCE_THRESHOLD = 0.75` (same constant in `core/ocr_engine.py`). -/
def CONFIDENCE_THRESHOLD : ℚ := 75 / 100

/-- One entry of the `paddle_lines` list built by `run_paddle_ocr`:
recognized text (already stripped), confidence, and the preprocessed crop.
The crop type `κ` is abstract: crops are only ever handed to the fallback
engine. -/
structure PaddleLine (κ : Type) where
  text : String
  conf : ℚ
  crop : κ
deriving DecidableEq

/-- Result dictionary shape `{"success": ..., "message": ..., "lines": ...}`
returned by `run_tesseract_on_low_conf` (`lines` is the joined text). -/
structure OcrResult where
  success : Bool
  message : String
  lines : String
deriving DecidableEq

/-- The per-line body of the loop in `run_tesseract_on_low_conf`.  The
fallback engine is an oracle `κ → Except String String`; an `Except.error`
models `pytesseract` raising.  The returned flag records whether the
fallback engine was invoked for this line.  Translated from
`core/tesseract_fallback.py` lines 39-60. -/
def reconcileLine {κ : Type} (engine : κ → Except String String)
    (l : PaddleLine κ) : Except String (String × Bool) :=
  if CONFIDENCE_THRESHOLD ≤ l.conf then .ok (l.text, false)
  else do
    let raw ← engine l.crop
    let t_text := pyStrip raw
    let similarity : ℚ := if t_text ≠ "" then lev_sim t_text l.text else 0
    if t_text ≠ "" ∧ ((85 : ℚ) / 100 ≤ similarity ∨ l.text.length + 3 < t_text.length) then
      .ok (t_text, true)
    else
      .ok (l.text, true)

/-- The `for line in paddle_lines` loop of `run_tesseract_on_low_conf`,
collecting `merged_lines` in order; an engine exception aborts the loop
exactly as a raised exception does. -/
def merge_loop {κ : Type} (engine : κ → Except String String) :
    List (PaddleLine κ) → Except String (List String)
  | [] => .ok []
  | l :: rest => do
    let r ← reconcileLine engine l
    let others ← merge_loop engine rest
    .ok (r.1 :: others)

/-- One line of `postprocess_text`: the three literal substitutions in
source order, then `strip`. -/
def cleanLine (line : String) : String :=
  pyStrip (pyReplace (pyReplace (pyReplace line "I1em" "Item") "$ " "$") " - " "-")

/-- `postprocess_text` from `core/tesseract_fallback.py` lines 69-80:
clean each line, keep the non-empty ones. -/
def postprocess_text : List String → List String
  | [] => []
  | line :: rest =>
    let txt := cleanLine line
    if txt ≠ "" then txt :: postprocess_text rest else postprocess_text rest

/-- `run_tesseract_on_low_conf` from `core/tesseract_fallback.py`. -/
def run_tesseract_on_low_conf {κ : Type} (engine : κ → Except String String)
    (paddle_lines : List (PaddleLine κ)) : Except String OcrResult := do
  let merged_lines ← merge_loop engine paddle_lines
  .ok ⟨true, "Text extracted", joinWith "\n" (postprocess_text merged_lines)⟩

/-- The pure decision on one line when the fallback engine replies
normally: used to state theorems about the reconciler. -/
def lineDecision {κ : Type} (f : κ → String) (l : PaddleLine κ) : String :=
  if CONFIDENCE_THRESHOLD ≤ l.conf then l.text
  else
    let t_text := pyStrip (f l.crop)
    if t_text ≠ "" ∧ ((85 : ℚ) / 100 ≤ lev_sim t_text l.text ∨ l.text.length + 3 < t_text.length) then
      t_text
    else
      l.text

/-! ### The image model

An image is modelled by its channel layout and its grayscale plane: a 2-D
array (list of rows) of 8-bit intensities.  For a 2-D source array
`channels = 1`; otherwise `channels` is `shape[2]`.  For multi-channel
images, `gray` records the plane that OpenCV's BGR→gray conversion yields;
every repository computation on the relevant paths reads pixel data only
through that conversion, the row count, or hands the image to an external
transform (modelled as an oracle). -/

structure Img where
  channels : Nat
  gray : List (List Nat)
deriving DecidableEq

/-- Model of `cv2.cvtColor(img, cv2.COLOR_BGR2GRAY)`: OpenCV asserts that
the source has 3 or 4 channels and otherwise raises; on success it yields
the grayscale plane. -/
def cvtColor_bgr2gray (img : Img) : Except String (List (List Nat)) :=
  if img.channels = 3 ∨ img.channels = 4 then .ok img.gray
  else .error "cvtColor: invalid number of channels"

/-! ### Laplacian variance (`cv2.Laplacian(gray, cv2.CV_64F).var()`)

`cv2.Laplacian` with the default aperture convolves with the kernel
`[[0,1,0],[1,-4,1],[0,1,0]]` under `BORDER_REFLECT_101`; `.var()` is the
population variance (mean of squares minus square of the mean). -/

/-- `BORDER_REFLECT_101` index folding for an axis of length `n` (OpenCV
returns 0 for a length-1 axis). -/
def refl101 (n : Nat) (i : Int) : Int :=
  if n ≤ 1 then 0
  else if i < 0 then -i
  else if (n : Int) ≤ i then 2 * ((n : Int) - 1) - i
  else i

/-- Pixel read with `BORDER_REFLECT_101` folding on both axes. -/
def gpix (g : List (List Nat)) (i j : Int) : Int :=
  let n := g.length
  let m := (g.headD []).length
  ((g.getD (refl101 n i).toNat []).getD (refl101 m j).toNat 0 : Nat)

/-- The Laplacian response at one pixel. -/
def lapAt (g : List (List Nat)) (i j : Int) : Int :=
  gpix g (i - 1) j + gpix g (i + 1) j + gpix g i (j - 1) + gpix g i (j + 1)
    - 4 * gpix g i j

/-- All Laplacian responses, row-major. -/
def lapVals (g : List (List Nat)) : List Int :=
  ((List.range g.length).map (fun i =>
    (List.range (g.headD []).length).map (fun j => lapAt g i j))).flatten

/-- Number of pixels. -/
def lapN (g : List (List Nat)) : Nat := (lapVals g).length

/-- Sum of the Laplacian responses. -/
def lapS (g : List (List Nat)) : Int := (lapVals g).foldl (· + ·) 0

/-- Sum of the squared Laplacian responses. -/
def lapSS (g : List (List Nat)) : Int := (lapVals g).foldl (fun s x => s + x * x) 0

/-- `np.var`: mean of squares minus square of the mean, exact over ℚ. -/
def lapVar (g : List (List Nat)) : ℚ :=
  (lapSS g : ℚ) / (lapN g) - ((lapS g : ℚ) / (lapN g)) ^ 2

/-! ### `core/preprocess.py`: quality gate -/

/-- `detect_blur` (lines 102-105): grayscale conversion, Laplacian
variance, compare against the default threshold `100.0`. -/
def detect_blur (img : Img) : Except String (Bool × ℚ) := do
  let gray ← cvtColor_bgr2gray img
  let laplacian_var := lapVar gray
  .ok (decide (laplacian_var < 100), laplacian_var)

/-- Maximum intensity (`gray.max()`); the model returns 0 on an empty
array instead of raising. -/
def maxPix (g : List (List Nat)) : Nat := g.flatten.foldl max 0

/-- Minimum intensity (`gray.min()`); the model returns 0 on an empty
array instead of raising. -/
def minPix (g : List (List Nat)) : Nat :=
  match g.flatten with
  | [] => 0
  | x :: xs => xs.foldl min x

/-- `is_low_contrast` (lines 218-231): `(max - min) < 15.0` on the
grayscale plane. -/
def is_low_contrast (img : Img) : Except String Bool := do
  let gray ← cvtColor_bgr2gray img
  .ok (decide (maxPix gray - minPix gray < 15))

/-- `is_low_resolution`: `img.shape[0] < 500`; the row count is the same
whatever the channel layout. -/
def is_low_resolution (img : Img) : Bool := decide (img.gray.length < 500)

/-- The verdict reason carried by `validate`'s message string. -/
inductive Reason where
  | blurry
  | low_contrast
  | low_resolution
  | ok
deriving DecidableEq

/-- `validate` (lines 250-267): blur, then contrast, then resolution,
short-circuiting on the first failure.  The formatted message string is
abstracted to its `Reason` tag. -/
def validate (img : Img) : Except String (Bool × Reason) := do
  let r ← detect_blur img
  if r.1 then .ok (false, .blurry)
  else do
    let lc ← is_low_contrast img
    if lc then .ok (false, .low_contrast)
    else if is_low_resolution img then .ok (false, .low_resolution)
    else .ok (true, .ok)

/-- Bridge lemma: the variance comparison against the blur threshold is
equivalent to an integer inequality, with all divisions cleared. -/
theorem lapVar_lt_hundred (g : List (List Nat)) (h : 0 < lapN g) :
    lapVar g < 100 ↔
      lapSS g * (lapN g : Int) - lapS g * lapS g < 100 * ((lapN g : Int) * (lapN g : Int)) := by
  have hN : (0 : ℚ) < (lapN g : ℚ) := by exact_mod_cast h
  have key : lapVar g * ((lapN g : ℚ) * (lapN g : ℚ))
      = (lapSS g : ℚ) * (lapN g : ℚ) - (lapS g : ℚ) * (lapS g : ℚ) := by
    rw [lapVar]; field_simp; ring
  rw [← mul_lt_mul_right (show (0 : ℚ) < (lapN g : ℚ) * (lapN g : ℚ) by positivity), key]
  constructor
  · intro hx; exact_mod_cast hx
  · intro hx; exact_mod_cast hx

/-- Claim C1: for every recognized line, if the primary confidence is at
least 0.75 (including exactly 0.75) the primary text is final and the
fallback engine is not invoked (flag `false`); below 0.75 the fallback
engine is invoked on the line's crop (flag `true`) and its stripped
candidate becomes the final text exactly when it is non-empty and either
its edit-distance similarity ratio to the primary text is at least 0.85 or
it is more than 3 characters longer than the primary text; otherwise the
primary text is kept. -/
theorem claim1_reconcile_decision {κ : Type} (engine : κ → Except String String)
    (l : PaddleLine κ) :
    ((75 : ℚ) / 100 ≤ l.conf → reconcileLine engine l = .ok (l.text, false)) ∧
    (l.conf < (75 : ℚ) / 100 → ∀ raw, engine l.crop = .ok raw →
      reconcileLine engine l = .ok
        ((if pyStrip raw ≠ "" ∧
              ((85 : ℚ) / 100 ≤ lev_sim (pyStrip raw) l.text ∨
               l.text.length + 3 < (pyStrip raw).length)
          then pyStrip raw else l.text), true)) := by
  constructor
  · intro h
    rw [reconcileLine, if_pos (show CONFIDENCE_THRESHOLD ≤ l.conf from h)]
  · intro h raw hraw
    rw [reconcileLine, if_neg (not_le.mpr (show l.conf < CONFIDENCE_THRESHOLD from h))]
    by_cases ht : pyStrip raw = ""
    · simp [hraw, bind, Except.bind, ht]
    · by_cases hcond : (85 : ℚ) / 100 ≤ lev_sim (pyStrip raw) l.text ∨
          l.text.length + 3 < (pyStrip raw).length <;>
        simp [hraw, bind, Except.bind, ht, hcond]

/-- Claim C1 witness: at confidence exactly 0.75 the primary text "ab" is
kept with no fallback call; at confidence 0.5 with fallback reply " ab "
(identical after stripping, similarity 1 ≥ 0.85) the candidate is taken
and the fallback was invoked. -/
theorem claim1_reconcile_decision_w :
    reconcileLine (fun _ : Unit => .ok " ab ") ⟨"ab", 75 / 100, ()⟩ = .ok ("ab", false) ∧
    reconcileLine (fun _ : Unit => .ok " ab ") ⟨"ab", 1 / 2, ()⟩ = .ok ("ab", true) := by
  constructor
  · exact (claim1_reconcile_decision (fun _ : Unit => .ok " ab ") ⟨"ab", 75 / 100, ()⟩).1
      (by norm_num)
  · have h := (claim1_reconcile_decision (fun _ : Unit => .ok " ab ") ⟨"ab", 1 / 2, ()⟩).2
      (by norm_num) " ab " rfl
    have hstrip : pyStrip " ab " = "ab" := by decide
    have hsim : lev_sim "ab" "ab" = 1 := by
      have hlcs : lcsLen "ab".data "ab".data = 2 := by decide
      have hlen : ("ab" : String).length = 2 := by decide
      rw [lev_sim, if_neg (by decide), hlcs, hlen]; norm_num
    rw [h, hstrip, if_pos ⟨by decide, Or.inl (by rw [hsim]; norm_num)⟩]

/-- On a supported layout, `validate`'s verdict as a decision table. -/
theorem validate_gate_eq (img : Img) (h : img.channels = 3 ∨ img.channels = 4) :
    validate img = .ok
      (if lapVar img.gray < 100 then (false, Reason.blurry)
       else if maxPix img.gray - minPix img.gray < 15 then (false, Reason.low_contrast)
       else if img.gray.length < 500 then (false, Reason.low_resolution)
       else (true, Reason.ok)) := by
  by_cases hb : lapVar img.gray < 100 <;>
  by_cases hc : maxPix img.gray - minPix img.gray < 15 <;>
  by_cases hr : img.gray.length < 500 <;>
  simp [validate, detect_blur, is_low_contrast, is_low_resolution, cvtColor_bgr2gray,
    if_pos h, bind, Except.bind, hb, hc, hr]

/-- Claim C2: for every 3- or 4-channel image the quality gate runs blur,
contrast, resolution in that order, short-circuiting on the first failure:
blurry exactly when the Laplacian variance of the grayscale plane is
below 100.0; otherwise low-contrast exactly when the grayscale intensity
range is below 15.0; otherwise low-resolution exactly when the height is
below 500; otherwise valid. -/
theorem claim2_quality_gate (img : Img) (h : img.channels = 3 ∨ img.channels = 4) :
    validate img = .ok
      (if lapVar img.gray < 100 then (false, Reason.blurry)
       else if maxPix img.gray - minPix img.gray < 15 then (false, Reason.low_contrast)
       else if img.gray.length < 500 then (false, Reason.low_resolution)
       else (true, Reason.ok)) :=
  validate_gate_eq img h

/-- Claim C2 witness: a sharp (variance 1040400), high-contrast (range
255), 3-channel image of height 2 is rejected as low-resolution — the
third check's reason, the first two having passed. -/
theorem claim2_quality_gate_w :
    validate ⟨3, [[0, 255], [255, 0]]⟩ = .ok (false, Reason.low_resolution) := by
  have hb : ¬ lapVar [[0, 255], [255, 0]] < 100 := by
    rw [lapVar_lt_hundred _ (by decide)]; decide
  rw [claim2_quality_gate _ (Or.inl rfl), if_neg hb, if_neg (by decide), if_pos (by decide)]

/-- Claim C7 counterexample: the postprocessor maps ["Total :  $ 40"] to
["Total :  $40"], not to the claimed ["Total: $40"] — no substitution
touches the space before the colon or collapses double spaces. -/
theorem claim7_counter : postprocess_text ["Total :  $ 40"] ≠ ["Total: $40"] := by decide

/-- Claim C7 amended: the postprocessor's fixed ordered substitutions
("I1em"→"Item", "$ "→"$", " - "→"-"), per-line trimming and empty-line
dropping deterministically map ["Total :  $ 40"] to ["Total :  $40"]. -/
theorem claim7_postprocess : postprocess_text ["Total :  $ 40"] = ["Total :  $40"] := by decide

/-- Claim C8 counterexample: a 1-channel (2-D grayscale) image makes the
quality gate raise — `detect_blur`'s BGR→gray conversion asserts a 3- or
4-channel source — contradicting the claim that every image with 1, 3, or
4 channels yields a verdict without throwing. -/
theorem claim8_counter : (validate ⟨1, [[0]]⟩).isOk = false := by decide

/-- Claim C8 amended: the quality gate returns a verdict without throwing
for every 3- or 4-channel image; any other channel count — including a
1-channel grayscale image — is a hard error raised by the grayscale
conversion inside the blur check. -/
theorem claim8_gate_totality (img : Img) :
    ((img.channels = 3 ∨ img.channels = 4) → (validate img).isOk = true) ∧
    (¬ (img.channels = 3 ∨ img.channels = 4) → (validate img).isOk = false) := by
  constructor
  · intro h
    rw [validate_gate_eq img h]
    by_cases hb : lapVar img.gray < 100
    · simp [hb, Except.isOk, Except.toBool]
    · by_cases hc : maxPix img.gray - minPix img.gray < 15
      · simp [hb, hc, Except.isOk, Except.toBool]
      · by_cases hr : img.gray.length < 500 <;>
          simp [hb, hc, hr, Except.isOk, Except.toBool]
  · intro h
    simp [validate, detect_blur, cvtColor_bgr2gray, if_neg h, bind, Except.bind,
      Except.isOk, Except.toBool]

/-- Claim C8 witness: a 3-channel image gets a verdict; a 1-channel image
raises. -/
theorem claim8_gate_totality_w :
    (validate ⟨3, [[5]]⟩).isOk = true ∧ (validate ⟨1, [[5]]⟩).isOk = false :=
  ⟨(claim8_gate_totality ⟨3, [[5]]⟩).1 (Or.inl rfl),
   (claim8_gate_totality ⟨1, [[5]]⟩).2 (by decide)⟩

/-- With a normally-replying fallback engine, each loop iteration yields
exactly the pure per-line decision. -/
theorem reconcileLine_total {κ : Type} (f : κ → String) (l : PaddleLine κ) :
    ∃ b, reconcileLine (fun c => .ok (f c)) l = .ok (lineDecision f l, b) := by
  rw [reconcileLine, lineDecision]
  by_cases h : CONFIDENCE_THRESHOLD ≤ l.conf
  · exact ⟨false, by rw [if_pos h, if_pos h]⟩
  · rw [if_neg h, if_neg h]
    refine ⟨true, ?_⟩
    by_cases ht : pyStrip (f l.crop) = ""
    · simp [bind, Except.bind, ht]
    · by_cases hcond : (85 : ℚ) / 100 ≤ lev_sim (pyStrip (f l.crop)) l.text ∨
          l.text.length + 3 < (pyStrip (f l.crop)).length <;>
        simp [bind, Except.bind, ht, hcond]

/-- With a normally-replying fallback engine, the merge loop returns one
string per input line, in input order. -/
theorem merge_loop_total {κ : Type} (f : κ → String) :
    ∀ lines : List (PaddleLine κ),
      merge_loop (fun c => .ok (f c)) lines = .ok (lines.map (lineDecision f))
  | [] => rfl
  | l :: rest => by
    obtain ⟨b, hb⟩ := reconcileLine_total f l
    rw [merge_loop]
    simp [bind, Except.bind, hb, merge_loop_total f rest]

/-- `postprocess_text` cleans each line independently and keeps the
non-empty results, preserving relative order. -/
theorem postprocess_text_eq :
    ∀ l : List String,
      postprocess_text l = (l.map cleanLine).filter (fun s => !(s == ""))
  | [] => rfl
  | line :: rest => by
    rw [postprocess_text]
    by_cases h : cleanLine line = "" <;>
      simp [h, postprocess_text_eq rest, List.filter_cons, beq_iff_eq]

/-- Claim C6: for every non-empty list of recognized lines and a
normally-replying fallback engine, reconciliation produces exactly one
final string per input line (a `map`, so nothing is dropped there and the
input order is kept), and the final text joins the per-line cleanups of
those strings in that same order — the postprocessor is a per-line map
followed by an order-preserving empty-line filter, with no re-sorting. -/
theorem claim6_line_preservation {κ : Type} (f : κ → String)
    (lines : List (PaddleLine κ)) (_hne : lines ≠ []) :
    run_tesseract_on_low_conf (fun c => .ok (f c)) lines
      = .ok ⟨true, "Text extracted",
          joinWith "\n" (postprocess_text (lines.map (lineDecision f)))⟩
    ∧ (lines.map (lineDecision f)).length = lines.length
    ∧ postprocess_text (lines.map (lineDecision f))
        = ((lines.map (lineDecision f)).map cleanLine).filter (fun s => !(s == "")) := by
  refine ⟨?_, List.length_map _ _, postprocess_text_eq _⟩
  rw [run_tesseract_on_low_conf]
  simp [bind, Except.bind, merge_loop_total f lines]

/-- Claim C6 witness: a singleton line list resolves to exactly its one
decided string. -/
theorem claim6_line_preservation_w :
    run_tesseract_on_low_conf (fun _ : Unit => .ok "") [⟨"ab", 1, ()⟩]
      = .ok ⟨true, "Text extracted",
          joinWith "\n" (postprocess_text ([(⟨"ab", 1, ()⟩ : PaddleLine Unit)].map
            (lineDecision (fun _ : Unit => ""))))⟩
    ∧ ([(⟨"ab", 1, ()⟩ : PaddleLine Unit)].map (lineDecision (fun _ : Unit => ""))).length
        = [(⟨"ab", 1, ()⟩ : PaddleLine Unit)].length
    ∧ postprocess_text ([(⟨"ab", 1, ()⟩ : PaddleLine Unit)].map (lineDecision (fun _ : Unit => "")))
        = (([(⟨"ab", 1, ()⟩ : PaddleLine Unit)].map (lineDecision (fun _ : Unit => ""))).map
            cleanLine).filter (fun s => !(s == "")) :=
  claim6_line_preservation (fun _ : Unit => "") [⟨"ab", 1, ()⟩] (List.cons_ne_nil _ _)

/-! ### `core/preprocess.py`: normalization chain

Each OpenCV transform is an oracle field of `NormEnv`; `Except.error`
models the library call raising.  The repository's own control flow —
which steps are wrapped in `try/except`, their order, the blur-gated
deblurring, the deskew angle arithmetic — is translated directly. -/

/-- `safe_to_gray`: accepts 2-D, 3-channel and 4-channel layouts, raises
`ValueError` otherwise. -/
def safe_to_gray (img : Img) : Except String (List (List Nat)) :=
  if img.channels = 1 ∨ img.channels = 3 ∨ img.channels = 4 then .ok img.gray
  else .error "Unsupported image shape"

/-- `ensure_bgr`: coerce grayscale/single-channel/BGRA to 3-channel BGR,
raise for anything else. -/
def ensure_bgr (img : Img) : Except String Img :=
  if img.channels = 1 ∨ img.channels = 3 ∨ img.channels = 4 then .ok ⟨3, img.gray⟩
  else .error "Unsupported image format"

/-- Rotation parameters handed to `cv2.getRotationMatrix2D` /
`cv2.warpAffine`: the integer centre `(w // 2, h // 2)`, the angle passed
to the rotation matrix, and whether `BORDER_REPLICATE` is used. -/
structure RotCall where
  center : Int × Int
  angle : ℚ
  borderReplicate : Bool
deriving DecidableEq

/-- Contour retrieval modes of `cv2.findContours` relevant here. -/
inductive ContourMode where
  | retrExt
  | retrList
deriving DecidableEq

/-- The retrieval mode `deskew_image` passes to `cv2.findContours`:
`cv2.RETR_LIST` (all contours), not `RETR_EXTERNAL`. -/
def deskew_contour_mode : ContourMode := .retrList

/-- Oracles for the external image operations used by the normalization
chain of `core/preprocess.py` / `core/ocr_engine.py`.  Each field stands
for the named library calls of one sub-step. -/
structure NormEnv where
  /-- `cv2.dnn_superres` model load + `upsample` (body of `super_resolve`). -/
  sr_upsample : Img → Except String Img
  /-- Otsu threshold + white compositing (body of `force_white_background`). -/
  white_bg : Img → Except String Img
  /-- `cv2.GaussianBlur` + `cv2.addWeighted` (blurry branch of `conditional_deblur`). -/
  deblur_ops : Img → Except String Img
  /-- `cv2.fastNlMeansDenoising`. -/
  denoise : Img → Except String Img
  /-- `cv2.morphologyEx` closing + `cv2.divide` (illumination correction). -/
  illumination : Img → Except String Img
  /-- `cv2.filter2D` with the sharpening kernel. -/
  sharpen : Img → Except String Img
  /-- `cv2.adaptiveThreshold` (block 31, offset 15). -/
  binarize : Img → Except String Img
  /-- Pixel counting + optional `cv2.bitwise_not` (polarity correction). -/
  polarity : Img → Except String Img
  /-- Otsu threshold + `cv2.findContours` (with `deskew_contour_mode`) +
  `cv2.minAreaRect`: the rotation angle of each detected contour. -/
  otsu_contours : Img → Except String (List ℚ)
  /-- `cv2.getRotationMatrix2D` + `cv2.warpAffine` with the given call
  parameters. -/
  warp : Img → RotCall → Except String Img

/-- `super_resolve`: the whole body is inside `try/except`; on any failure
the input image is returned unchanged. -/
def super_resolve (env : NormEnv) (img : Img) : Img :=
  match env.sr_upsample img with
  | .ok r => r
  | .error _ => img

/-- `conditional_deblur`: re-runs the blur check and only sharpens a
blurry image; no local exception handling. -/
def conditional_deblur (env : NormEnv) (img : Img) : Except String Img := do
  let r ← detect_blur img
  if r.1 then env.deblur_ops img else .ok img

/-- `preprocess_image` (lines 165-216): the fixed sub-step order, with no
`try/except` around any sub-step. -/
def preprocess_image (env : NormEnv) (img : Img) : Except String Img := do
  let img ← ensure_bgr img
  let img ← env.white_bg img
  let img ← conditional_deblur env img
  let gray ← cvtColor_bgr2gray img
  let img : Img := ⟨1, gray⟩
  let img ← env.denoise img
  let img ← env.illumination img
  let img ← env.sharpen img
  let img ← env.binarize img
  env.polarity img

/-- The angle loop of `deskew_image`: add 90° to angles below −45°, keep
only angles strictly inside (−45°, 45°). -/
def deskew_angles : List ℚ → List ℚ
  | [] => []
  | a0 :: rest =>
    let a := if a0 < -45 then a0 + 90 else a0
    if -45 < a ∧ a < 45 then a :: deskew_angles rest else deskew_angles rest

/-- Insert into a sorted list (ascending). -/
def insSorted (a : ℚ) : List ℚ → List ℚ
  | [] => [a]
  | b :: r => if a ≤ b then a :: b :: r else b :: insSorted a r

/-- Insertion sort, ascending. -/
def sortQ (l : List ℚ) : List ℚ := l.foldr insSorted []

/-- `np.median`: middle element of the sorted list, or the mean of the two
middle elements for even length. -/
def median (l : List ℚ) : ℚ :=
  let s := sortQ l
  if l.length % 2 = 1 then s.getD (l.length / 2) 0
  else ((s.getD (l.length / 2 - 1) 0) + s.getD (l.length / 2) 0) / 2

/-- The rotation `deskew_image` performs, given the contour angles: `none`
when no angle survives the filter (the image is returned unrotated),
otherwise a rotation about `(w // 2, h // 2)` by the median surviving
angle with border replication, applied to the original input image. -/
def deskew_rotation (img : Img) (raw : List ℚ) : Option RotCall :=
  match deskew_angles raw with
  | [] => none
  | a :: rest =>
    some ⟨(((img.gray.headD []).length : Int) / 2, ((img.gray.length : Int) / 2)),
      median (a :: rest), true⟩

/-- `deskew_image` (lines 63-98): everything inside `try/except`; any
failure — unsupported shape, contour extraction, or the warp itself —
returns the input image unchanged. -/
def deskew_image (env : NormEnv) (img : Img) : Img :=
  match (do
      let _ ← safe_to_gray img
      env.otsu_contours img : Except String (List ℚ)) with
  | .error _ => img
  | .ok raw =>
    match deskew_rotation img raw with
    | none => img
    | some rc =>
      match env.warp img rc with
      | .ok r => r
      | .error _ => img

/-- The normalization chain as invoked by `run_paddle_ocr` (lines 45-60 of
`core/ocr_engine.py`, quality gate aside): optional super-resolution,
`preprocess_image`, optional deskew, final BGR coercion. -/
def normalizeImage (env : NormEnv) (use_superres use_deskew : Bool) (img : Img) :
    Except String Img := do
  let img := if use_superres then super_resolve env img else img
  let img ← preprocess_image env img
  let img := if use_deskew then deskew_image env img else img
  ensure_bgr img

/-- An always-succeeding identity transform oracle. -/
def idOk : Img → Except String Img := fun i => .ok i

/-- Environment in which only the denoising call raises. -/
def envBoom : NormEnv :=
  ⟨idOk, idOk, idOk, fun _ => .error "boom", idOk, idOk, idOk, idOk,
    fun _ => .ok [], fun i _ => .ok i⟩

/-- Environment in which every external call raises. -/
def envAllFail : NormEnv :=
  ⟨fun _ => .error "x", fun _ => .error "x", fun _ => .error "x", fun _ => .error "x",
    fun _ => .error "x", fun _ => .error "x", fun _ => .error "x", fun _ => .error "x",
    fun _ => .error "x", fun _ _ => .error "x"⟩

/-- Claim C3 counterexample: with a failing denoising call (and every
other sub-step succeeding), the error propagates out of the normalization
pipeline instead of the sub-step acting as the identity — refuting the
claim that every sub-step's failure is caught locally and never
propagated. -/
theorem claim3_counter :
    normalizeImage envBoom true true ⟨3, [[7, 7], [7, 7]]⟩ = .error "boom" := by
  have hb : lapVar [[7, 7], [7, 7]] < 100 := by
    rw [lapVar_lt_hundred _ (by decide)]; decide
  simp [normalizeImage, preprocess_image, super_resolve, envBoom, idOk, conditional_deblur,
    detect_blur, cvtColor_bgr2gray, ensure_bgr, bind, Except.bind, hb]

/-- Claim C3 amended: only the super-resolution and deskew sub-steps catch
their own failures and act as the identity on their input; a failure in
any other sub-step (here: the first of them, background flattening)
propagates out of the normalization pipeline, which aborts instead of
continuing with the remaining sub-steps. -/
theorem claim3_step_guards (env : NormEnv) (img img1 : Img) (e : String) :
    (env.sr_upsample img = .error e → super_resolve env img = img)
    ∧ (env.otsu_contours img = .error e → deskew_image env img = img)
    ∧ (ensure_bgr img = .ok img1 → env.white_bg img1 = .error e →
        preprocess_image env img = .error e) := by
  refine ⟨?_, ?_, ?_⟩
  · intro h; rw [super_resolve, h]
  · intro h
    rw [deskew_image]
    cases hsg : safe_to_gray img <;> simp [bind, Except.bind, hsg, h]
  · intro h1 h2
    rw [preprocess_image]
    simp [bind, Except.bind, h1, h2]

/-- Claim C3 witness: the guarded steps degrade to the identity under a
universally failing environment, and the unguarded background-flattening
failure aborts `preprocess_image`. -/
theorem claim3_step_guards_w :
    super_resolve envAllFail ⟨3, [[0]]⟩ = ⟨3, [[0]]⟩
    ∧ deskew_image envAllFail ⟨3, [[0]]⟩ = ⟨3, [[0]]⟩
    ∧ preprocess_image envAllFail ⟨3, [[0]]⟩ = .error "x" :=
  ⟨(claim3_step_guards envAllFail ⟨3, [[0]]⟩ ⟨3, [[0]]⟩ "x").1 rfl,
   (claim3_step_guards envAllFail ⟨3, [[0]]⟩ ⟨3, [[0]]⟩ "x").2.1 rfl,
   (claim3_step_guards envAllFail ⟨3, [[0]]⟩ ⟨3, [[0]]⟩ "x").2.2 rfl rfl⟩

/-- Modelled from the spec: the deskew rotation as §4.2 step 9 describes
it — fold every contour angle into (−45°, 45°) by adding 90° to
out-of-range values, take the median over all contours, and rotate about
the centre with border replication. -/
def deskew_rotation_spec (img : Img) (raw : List ℚ) : Option RotCall :=
  match raw with
  | [] => none
  | _ :: _ =>
    some ⟨(((img.gray.headD []).length : Int) / 2, ((img.gray.length : Int) / 2)),
      median (raw.map (fun a => if -45 < a ∧ a < 45 then a else a + 90)), true⟩

/-- Claim C9 counterexample: a single contour of min-area-rect angle −45°.
The code adds 90° only to angles strictly below −45° and then discards
angles not strictly inside (−45°, 45°), so −45° is discarded, no angle
survives, and no rotation is performed — while the spec's fold-then-median
description demands a rotation (by the folded angle 45°). -/
theorem claim9_counter :
    deskew_rotation ⟨3, [[0, 0], [0, 0]]⟩ [(-45 : ℚ)] = none
    ∧ deskew_rotation_spec ⟨3, [[0, 0], [0, 0]]⟩ [(-45 : ℚ)] = some ⟨(1, 1), 45, true⟩ := by
  constructor
  · have h1 : deskew_angles [(-45 : ℚ)] = [] := by
      simp only [deskew_angles]
      norm_num
    rw [deskew_rotation, h1]
  · rw [deskew_rotation_spec]
    norm_num [median, sortQ, insSorted]

/-- The deskew angle loop, as a `filterMap`. -/
theorem deskew_angles_eq (raw : List ℚ) :
    deskew_angles raw = raw.filterMap (fun a0 =>
      let a := if a0 < -45 then a0 + 90 else a0
      if -45 < a ∧ a < 45 then some a else none) := by
  induction raw with
  | nil => rfl
  | cons a0 rest ih =>
    by_cases h1 : -45 < (if a0 < -45 then a0 + 90 else a0)
        ∧ (if a0 < -45 then a0 + 90 else a0) < 45 <;>
      simp [deskew_angles, List.filterMap_cons, h1, ih]

/-- Claim C9 amended: when deskewing runs on a supported layout with
contour angles `raw` (obtained via Otsu binarization and `RETR_LIST` — all
contours, not only external ones), the code adds 90° to angles below −45°,
keeps only angles strictly inside (−45°, 45°), and, if any survive,
rotates the original image about its integer centre by the median
surviving angle with border replication; with no surviving angle the image
is returned unrotated. -/
theorem claim9_deskew (env : NormEnv) (img : Img) (raw : List ℚ)
    (hch : img.channels = 1 ∨ img.channels = 3 ∨ img.channels = 4)
    (hc : env.otsu_contours img = .ok raw) :
    deskew_image env img = (match deskew_rotation img raw with
      | none => img
      | some rc => match env.warp img rc with | .ok r => r | .error _ => img)
    ∧ (deskew_rotation img raw = none ↔ deskew_angles raw = [])
    ∧ (∀ rc, deskew_rotation img raw = some rc →
        rc.angle = median (deskew_angles raw)
        ∧ rc.center = (((img.gray.headD []).length : Int) / 2, ((img.gray.length : Int) / 2))
        ∧ rc.borderReplicate = true)
    ∧ deskew_angles raw = raw.filterMap (fun a0 =>
        let a := if a0 < -45 then a0 + 90 else a0
        if -45 < a ∧ a < 45 then some a else none)
    ∧ deskew_contour_mode = ContourMode.retrList := by
  refine ⟨?_, ?_, ?_, ?_, rfl⟩
  · rw [deskew_image]
    have hsg : safe_to_gray img = .ok img.gray := by rw [safe_to_gray, if_pos hch]
    simp [bind, Except.bind, hsg, hc]
  · cases hda : deskew_angles raw <;> simp [deskew_rotation, hda]
  · intro rc hrc
    cases hda : deskew_angles raw with
    | nil => rw [deskew_rotation, hda] at hrc; exact absurd hrc (by simp)
    | cons a rest =>
      rw [deskew_rotation, hda] at hrc
      obtain rfl : rc = ⟨(((img.gray.headD []).length : Int) / 2,
          ((img.gray.length : Int) / 2)), median (a :: rest), true⟩ := by
        injection hrc with h; exact h.symm
      exact ⟨by simp [hda], rfl, rfl⟩
  · exact deskew_angles_eq raw

/-- Claim C9 witness: one contour at −50° is folded to 40°, survives the
filter, and the image is rotated (the warp oracle here returns its input,
so the result is the input image). -/
theorem claim9_deskew_w :
    deskew_image ⟨idOk, idOk, idOk, idOk, idOk, idOk, idOk, idOk,
        fun _ => .ok [(-50 : ℚ)], fun i _ => .ok i⟩ ⟨3, [[0, 0], [0, 0]]⟩
      = ⟨3, [[0, 0], [0, 0]]⟩ := by
  have h := (claim9_deskew ⟨idOk, idOk, idOk, idOk, idOk, idOk, idOk, idOk,
      fun _ => .ok [(-50 : ℚ)], fun i _ => .ok i⟩ ⟨3, [[0, 0], [0, 0]]⟩ [(-50 : ℚ)]
      (Or.inr (Or.inl rfl)) rfl).1
  have hda : deskew_angles [(-50 : ℚ)] = [(40 : ℚ)] := by
    simp only [deskew_angles]
    norm_num
  rw [h, deskew_rotation, hda]

/-! ### `utils/file_handler.py`: cache and the image branch of `extract_text`

`hashlib.md5(content).hexdigest()` (`get_image_hash`) is an oracle
`md5hex`, applied — as in the source — to the raw, unmodified uploaded
bytes.  The module-level dict `ocr_cache` is an association list where
insertion prepends (so a later `put` shadows an earlier one, as dict
assignment does).  `run_paddle_ocr` never raises (its body is wrapped in
`try/except`); its result is the oracle value `paddle`. -/

/-- Dict lookup: the most recently inserted binding wins. -/
def lookupCache : List (String × String) → String → Option String
  | [], _ => none
  | (k, v) :: rest, h => if k = h then some v else lookupCache rest h

/-- Dict assignment. -/
def insertCache (cache : List (String × String)) (k v : String) :
    List (String × String) := (k, v) :: cache

/-- The result of `run_paddle_ocr`: success flag, message, and the
recognized line list. -/
structure PaddleOut (κ : Type) where
  success : Bool
  message : String
  lines : List (PaddleLine κ)

/-- The recognition engines observable from `extract_text`. -/
inductive EngineCall where
  | paddle
  | tesseract
deriving DecidableEq

/-- What the caller of `extract_text` receives for an image upload: either
the structured dict `{"success", "message", "text"}` or — via the
function's final `return text` after its catch-all `except` — a bare
string. -/
inductive ExtractOut where
  | dict (success : Bool) (message : String) (text : String)
  | bare (text : String)
deriving DecidableEq

/-- The `for line in part.splitlines()` deduplication loop of
`extract_text` (lines 155-171 of `utils/file_handler.py`): strip each
line, keep it when non-empty and not yet seen. -/
def dedup_loop : List String → List String → List String → List String
  | _, acc, [] => acc.reverse
  | seen, acc, line :: rest =>
    let clean_line := pyStrip line
    if clean_line ≠ "" ∧ ¬ clean_line ∈ seen then
      dedup_loop (clean_line :: seen) (clean_line :: acc) rest
    else
      dedup_loop seen acc rest

/-- The deduplication applied to the reconciled text's lines. -/
def dedupLines (lines : List String) : List String := dedup_loop [] [] lines

/-- Keep-first deduplication, written as the textbook recursion: keep the
head, drop its later duplicates, recurse. -/
def firstDedup : List String → List String
  | [] => []
  | x :: xs => x :: firstDedup (xs.filter (fun y => decide (¬ y = x)))
termination_by l => l.length
decreasing_by
  simp_wf
  exact Nat.lt_succ_of_le (List.length_filter_le _ _)

/-- The image branch of `extract_text` (lines 126-171), together with its
surrounding `try/except`: cache probe, primary OCR, fallback
reconciliation, deduplication, cache write.  The third component records
which recognition engines were reached.  An exception escaping
`run_tesseract_on_low_conf` lands in the catch-all, which sets
`text = ""` and falls through to the function's final bare `return text`. -/
def extract_text_image {κ : Type} (md5hex : List Nat → String) (paddle : PaddleOut κ)
    (engine : κ → Except String String) (cache : List (String × String))
    (content : List Nat) : ExtractOut × List (String × String) × List EngineCall :=
  let image_hash := md5hex content
  match lookupCache cache image_hash with
  | some t => (.dict true "Text extracted successfully" t, cache, [])
  | none =>
    if paddle.success = false then (.dict false paddle.message "", cache, [.paddle])
    else
      match run_tesseract_on_low_conf engine paddle.lines with
      | .error _ => (.bare "", cache, [.paddle, .tesseract])
      | .ok result1 =>
        if result1.success = false then
          (.dict false result1.message "", cache, [.paddle, .tesseract])
        else
          let final_text := joinWith "\n" (dedupLines (splitlines result1.lines))
          (.dict true "Text extracted successfully" final_text,
            insertCache cache image_hash final_text, [.paddle, .tesseract])

/-- `run_tesseract_on_low_conf` always reports success when it returns. -/
theorem run_tesseract_success {κ : Type} (engine : κ → Except String String)
    (lines : List (PaddleLine κ)) (r : OcrResult)
    (h : run_tesseract_on_low_conf engine lines = .ok r) : r.success = true := by
  rw [run_tesseract_on_low_conf] at h
  cases hm : merge_loop engine lines with
  | error e => rw [hm] at h; exact absurd h (by simp [bind, Except.bind])
  | ok m =>
    rw [hm] at h
    simp only [bind, Except.bind, Except.ok.injEq] at h
    rw [← h]

/-- Splitting one element off the seen-set filter. -/
theorem filter_out_cons (R : List String) (c : String) (seen : List String) :
    R.filter (fun s => decide (¬ s ∈ c :: seen))
      = (R.filter (fun s => decide (¬ s ∈ seen))).filter (fun s => decide (¬ s = c)) := by
  rw [List.filter_filter]
  refine List.filter_congr (fun a _ => ?_)
  by_cases hac : a = c <;> by_cases has : a ∈ seen <;>
    simp [hac, has, List.mem_cons]

/-- The source's seen-set deduplication loop equals keep-first
deduplication of the stripped non-empty lines. -/
theorem dedup_loop_eq (l : List String) : ∀ seen acc : List String,
    dedup_loop seen acc l
      = acc.reverse ++ firstDedup
          (((l.map pyStrip).filter (fun s => decide (¬ s = ""))).filter
            (fun s => decide (¬ s ∈ seen))) := by
  induction l with
  | nil => intro seen acc; simp [dedup_loop, firstDedup]
  | cons line rest ih =>
    intro seen acc
    by_cases h1 : pyStrip line = ""
    · simp [dedup_loop, h1, ih]
    · by_cases h2 : pyStrip line ∈ seen
      · simp [dedup_loop, h1, h2, ih]
      · rw [dedup_loop]
        simp only [h1, h2, ne_eq, not_false_iff, and_self, if_true, not_true, not_false_eq_true]
        rw [ih]
        simp only [List.map_cons, List.filter_cons,
          show (decide (¬ pyStrip line = "")) = true by simp [h1],
          show (decide (¬ pyStrip line ∈ seen)) = true by simp [h2], if_true]
        rw [firstDedup, filter_out_cons]
        simp [List.reverse_cons, List.append_assoc]

/-- Claim C4 (the code at the failing input): for a cache-miss image whose
primary OCR succeeds with one contested line (confidence 0.5 < 0.75) and
whose fallback engine raises on that line's crop, the exception escapes
`run_tesseract_on_low_conf` into `extract_text`'s catch-all, and the
caller receives the bare string "" — not a structured result, and the
primary text "Total: $40" is not kept. -/
theorem claim4_fallback_raise :
    extract_text_image (fun _ => "h")
        (⟨true, "Text extracted", [⟨"Total: $40", 1 / 2, ()⟩]⟩ : PaddleOut Unit)
        (fun _ => .error "TesseractError") [] [0]
      = (.bare "", [], [.paddle, .tesseract]) := by
  have hrec : reconcileLine (fun _ : Unit => .error "TesseractError")
      ⟨"Total: $40", 1 / 2, ()⟩ = .error "TesseractError" := by
    rw [reconcileLine, if_neg (by norm_num [CONFIDENCE_THRESHOLD])]
    rfl
  simp only [extract_text_image, lookupCache, run_tesseract_on_low_conf, merge_loop, hrec,
    bind, Except.bind]
  simp

/-- Claim C5: the cache is keyed by the hash of the raw input bytes; a get
at `hash(B)` right after a put at `hash(B)` returns exactly the stored
text, and on a cache hit the stored text is returned unchanged with no
recognition engine invoked and the cache untouched. -/
theorem claim5_cache {κ : Type} (md5hex : List Nat → String) (B : List Nat) (T : String)
    (cache : List (String × String)) :
    lookupCache (insertCache cache (md5hex B) T) (md5hex B) = some T
    ∧ ∀ (paddle : PaddleOut κ) (engine : κ → Except String String) (t : String),
        lookupCache cache (md5hex B) = some t →
        extract_text_image md5hex paddle engine cache B
          = (.dict true "Text extracted successfully" t, cache, []) := by
  constructor
  · rw [insertCache, lookupCache, if_pos rfl]
  · intro paddle engine t h
    simp [extract_text_image, h]

/-- Claim C5 witness: put-then-get returns the stored text, and a hit on a
pre-populated cache answers from the cache with no engine calls. -/
theorem claim5_cache_w :
    lookupCache (insertCache [("h", "T")] "h" "T2") "h" = some "T2"
    ∧ extract_text_image (fun _ => "h") (⟨true, "m", []⟩ : PaddleOut Unit)
        (fun _ => .ok "") [("h", "T")] [7]
      = (.dict true "Text extracted successfully" "T", [("h", "T")], []) :=
  ⟨(@claim5_cache Unit (fun _ => "h") [7] "T2" [("h", "T")]).1,
   (claim5_cache (fun _ => "h") [7] "T" [("h", "T")]).2 ⟨true, "m", []⟩
     (fun _ => .ok "") "T" rfl⟩

/-- Claim C10: on the successful image path the final returned and cached
text is the newline-join of the deduplicated lines: lines are stripped,
empty lines dropped, and whenever two or more lines have identical
trimmed text only the first occurrence survives, the survivors keeping
first-occurrence order (`dedupLines` is exactly keep-first deduplication
of the stripped non-empty lines, so repeated identical lines are lost). -/
theorem claim10_dedup {κ : Type} (md5hex : List Nat → String) (paddle : PaddleOut κ)
    (engine : κ → Except String String) (cache : List (String × String))
    (content : List Nat)
    (hmiss : lookupCache cache (md5hex content) = none)
    (hps : paddle.success = true)
    (r : OcrResult) (hr : run_tesseract_on_low_conf engine paddle.lines = .ok r) :
    extract_text_image md5hex paddle engine cache content
      = (.dict true "Text extracted successfully"
            (joinWith "\n" (dedupLines (splitlines r.lines))),
          insertCache cache (md5hex content)
            (joinWith "\n" (dedupLines (splitlines r.lines))),
          [.paddle, .tesseract])
    ∧ ∀ ls : List String,
        dedupLines ls = firstDedup ((ls.map pyStrip).filter (fun s => decide (¬ s = ""))) := by
  constructor
  · have hsucc := run_tesseract_success engine paddle.lines r hr
    simp [extract_text_image, hmiss, hps, hr, hsucc]
  · intro ls
    rw [dedupLines, dedup_loop_eq]
    simp

/-- Claim C10 witness: the empty-line-list instance of the successful
path, together with the deduplication characterization. -/
theorem claim10_dedup_w :
    extract_text_image (fun _ => "k") (⟨true, "m", []⟩ : PaddleOut Unit)
        (fun _ => .ok "") [] []
      = (.dict true "Text extracted successfully"
            (joinWith "\n" (dedupLines (splitlines ""))),
          insertCache [] "k" (joinWith "\n" (dedupLines (splitlines ""))),
          [.paddle, .tesseract])
    ∧ ∀ ls : List String,
        dedupLines ls = firstDedup ((ls.map pyStrip).filter (fun s => decide (¬ s = ""))) :=
  claim10_dedup (fun _ => "k") ⟨true, "m", []⟩ (fun _ => .ok "") [] [] rfl rfl
    ⟨true, "Text extracted", ""⟩ rfl
